import Mathlib

/-!
# Verification of the music resolution core

A shallow embedding, in Lean 4, of the resolution pipeline of the
music-player repository: the similarity matcher and source ranker
(`src/js/api/utils.ts`), the LRC lyric parser (`src/js/player/lyrics.ts`),
the resolution orchestrator and preview detector (the resources module),
and the per-source circuit breaker (whose implementation file is not part
of the sources; it is modelled from the specification).

JavaScript numbers are embedded exactly: times and durations are kept in
integer milliseconds (the source stores seconds as floating-point values
obtained from exact millisecond data by a monotone injective map, so all
comparisons agree), and similarity scores are exact rationals.
JavaScript's stable `Array.prototype.sort` with a consistent comparator is
embedded as `List.insertionSort`, which is a stable sort for the
corresponding total preorder.  Asynchronous upstream calls are embedded as
oracle functions: a `none`/`Except.error` outcome stands for a caught
upstream failure, so functions that "never throw" are total Lean
functions.
-/

open List

/-! ## JavaScript string primitives -/

/-- ASCII lowercasing of a character, the fragment of
`String.prototype.toLowerCase` exercised by this code base (all pattern
constants are ASCII). -/
def asciiLower (c : Char) : Char :=
  if 'A' ≤ c && c ≤ 'Z' then Char.ofNat (c.toNat + 32) else c

/-- Predicate `listStartsWith pat l` is true when `pat` is a prefix of `l`. -/
def listStartsWith : List Char → List Char → Bool
  | [], _ => true
  | _ :: _, [] => false
  | a :: as, b :: bs => a = b && listStartsWith as bs

/-- Predicate `listContainsSeg pat l` is true when `pat` occurs contiguously inside
`l`; this is `String.prototype.includes` on character lists. -/
def listContainsSeg (pat : List Char) : List Char → Bool
  | [] => listStartsWith pat []
  | b :: bs => listStartsWith pat (b :: bs) || listContainsSeg pat bs

/-- The character class `\s` of JavaScript regular expressions, which is
also the set stripped by `String.prototype.trim`. -/
def isJsWhitespace (c : Char) : Bool :=
  c = ' ' || c = '\t' || c = '\n' || c = '\r' ||
  c.toNat = 0xb || c.toNat = 0xc || c.toNat = 0xa0 || c.toNat = 0x1680 ||
  (0x2000 <= c.toNat && c.toNat <= 0x200a) || c.toNat = 0x2028 ||
  c.toNat = 0x2029 || c.toNat = 0x202f || c.toNat = 0x205f ||
  c.toNat = 0x3000 || c.toNat = 0xfeff

/-- Embedding of `String.prototype.trim`: drop JavaScript whitespace from both ends. -/
def jsTrim (l : List Char) : List Char :=
  ((l.dropWhile isJsWhitespace).reverse.dropWhile isJsWhitespace).reverse

/-- Embedding of `split('\n')` on a character list, with the semantics of
`String.prototype.split` with a one-character separator: empty segments
are preserved and the empty input yields one empty segment. -/
def splitNl : List Char → List (List Char)
  | [] => [[]]
  | c :: cs =>
    if c = '\n' then [] :: splitNl cs
    else
      match splitNl cs with
      | [] => [[c]]
      | l :: ls => (c :: l) :: ls

/-! ## `src/js/api/utils.ts` — similarity matcher and source ranker -/

/-- The character set removed by `normalize` in `calculateSimilarity`:
the regular expression class `[\s\-\_\(\)\[\]（）]`. -/
def isNormStripped (c : Char) : Bool :=
  isJsWhitespace c || c = '-' || c = '_' || c = '(' || c = ')' ||
  c = '[' || c = ']' || c = '（' || c = '）'

/-- The helper `normalize` from `calculateSimilarity`: lowercase, then strip
whitespace, punctuation and brackets. -/
def normalizeStr (s : String) : List Char :=
  (s.data.map asciiLower).filter (fun c => !isNormStripped c)

/-- Embedding of `calculateSimilarity` from `src/js/api/utils.ts`: exact match scores
`1.0`, containment either way scores `0.8`, otherwise the Jaccard
similarity of the two unique-character sets.  Scores are exact rationals
(the source uses floating-point division only in the final branch). -/
def calculateSimilarity (str1 str2 : String) : ℚ :=
  let s1 := normalizeStr str1
  let s2 := normalizeStr str2
  if s1 = s2 then 1
  else if listContainsSeg s2 s1 || listContainsSeg s1 s2 then 8 / 10
  else
    let set1 := s1.toFinset
    let set2 := s2.toFinset
    ((set1 ∩ set2).card : ℚ) / ((set1 ∪ set2).card : ℚ)

/-- A JavaScript `string | string[]` artist field. -/
inductive JsArtist where
  | single : String → JsArtist
  | list : List String → JsArtist
deriving DecidableEq

/-- Embedding of `Array.prototype.join('/')`. -/
def joinSlash (l : List String) : String :=
  String.intercalate "/" l

/-- Embedding of `calculateSongMatchScore` from `src/js/api/utils.ts`: name weight
`0.6`, artist weight `0.4`; a candidate artist list is flattened by
joining with `/`. -/
def calculateSongMatchScore (targetName targetArtist candidateName : String)
    (candidateArtist : JsArtist) : ℚ :=
  let nameScore := calculateSimilarity targetName candidateName
  let candidateArtistStr :=
    match candidateArtist with
    | .list l => joinSlash l
    | .single s => s
  let artistScore := calculateSimilarity targetArtist candidateArtistStr
  nameScore * (6 / 10) + artistScore * (4 / 10)

/-- The fixed fallback roster of `getSortedFallbackSources`. -/
def FALLBACK_SOURCES : List String :=
  ["kuwo", "kugou", "migu", "tencent", "ximalaya", "joox"]

/-- The ordering used by the comparator `successB - successA`: `a` may
come before `b` exactly when the recorded success count of `a` is at
least that of `b` (descending by success count). -/
def successGE (success : String → Nat) (a b : String) : Prop :=
  success b ≤ success a

instance (success : String → Nat) : DecidableRel (successGE success) :=
  fun a b => Nat.decLe (success b) (success a)

instance (success : String → Nat) : IsTotal String (successGE success) :=
  ⟨fun a b => (Nat.le_total (success b) (success a)).imp id id⟩

instance (success : String → Nat) : IsTrans String (successGE success) :=
  ⟨fun _ _ _ h1 h2 => Nat.le_trans h2 h1⟩

/-- Embedding of `getSortedFallbackSources` from `src/js/api/utils.ts`: the fixed
roster minus the excluded source, sorted by the comparator
`successB - successA`.  `Array.prototype.sort` with a consistent
comparator is a stable sort, embedded as `List.insertionSort`.  The
module-level `sourceSuccessCount` map (with absent keys read as `0`) is
passed explicitly as `success`. -/
def getSortedFallbackSources (success : String → Nat) (excludeSource : String) :
    List String :=
  List.insertionSort (successGE success)
    (FALLBACK_SOURCES.filter (fun s => s ≠ excludeSource))

/-! ## `src/js/player/lyrics.ts` — LRC lyric parser -/

/-- Numeric value of an ASCII digit character. -/
def digitVal (c : Char) : Nat := c.toNat - 48

/-- Match the fractional part of a timestamp tag together with the
closing bracket, as the greedy regular expression fragment
`(\d{2,3})\]` does: three digits followed by `]` if possible, otherwise
two digits followed by `]`.  Returns the fraction normalized to
milliseconds (a 2-digit fraction is multiplied by 10) and the remaining
characters. -/
def fracMs : List Char → Option (Nat × List Char)
  | f1 :: f2 :: f3 :: rest =>
    if f1.isDigit && f2.isDigit then
      if f3.isDigit then
        if rest.head? = some ']' then
          some (digitVal f1 * 100 + digitVal f2 * 10 + digitVal f3, rest.tail)
        else none
      else if f3 = ']' then some ((digitVal f1 * 10 + digitVal f2) * 10, rest)
      else none
    else none
  | _ => none

/-- Match one timestamp tag `[mm:ss.xx]` or `[mm:ss.xxx]` (the regular
expression `\[(\d{2}):(\d{2})\.(\d{2,3})\]`) at the head of the
character list.  Returns the tag's time in milliseconds — the source
stores `m*60 + s + msValue/1000` seconds, embedded here as the exact
millisecond count — and the remaining characters. -/
def matchTagAt : List Char → Option (Nat × List Char)
  | '[' :: d1 :: d2 :: c :: d3 :: d4 :: dot :: rest =>
    if d1.isDigit && d2.isDigit && c = ':' && d3.isDigit && d4.isDigit && dot = '.' then
      match fracMs rest with
      | some (ms, tail) =>
        some (((digitVal d1 * 10 + digitVal d2) * 60 +
               (digitVal d3 * 10 + digitVal d4)) * 1000 + ms, tail)
      | none => none
    else none
  | _ => none

/-- One pass of a global regular-expression scan for timestamp tags, with
explicit fuel for structural recursion: at each position either a tag
matches (it is collected and skipped, as `String.prototype.match` with
the `g` flag does) or one character is kept as residual text (as
`String.prototype.replace` with the `g` flag and an empty replacement
leaves it).  The fuel is at least the list length at every call, so it
never runs out. -/
def scanLineAux : Nat → List Char → List Nat × List Char
  | _, [] => ([], [])
  | 0, cs => ([], cs)
  | fuel + 1, c :: cs =>
    match matchTagAt (c :: cs) with
    | some (t, tail) =>
      let r := scanLineAux fuel tail
      (t :: r.1, r.2)
    | none =>
      let r := scanLineAux fuel cs
      (r.1, c :: r.2)

/-- Scan a lyric line: the collected timestamp tags (in milliseconds, in
order of occurrence) and the residual text with all tags removed. -/
def scanLine (cs : List Char) : List Nat × List Char :=
  scanLineAux cs.length cs

/-- A parsed lyric line: time in integer milliseconds (the source stores
the equivalent seconds value `time_ms / 1000` as a float; the map is
monotone and injective on this range, so ordering and the `0.1 s`
tolerance agree), primary text, optional translated text. -/
structure LyricLine where
  time : Nat
  text : String
  ttext : Option String := none
deriving DecidableEq

/-- The inner `parseLine` of `parseLyrics`: a line with no timestamp tag,
or whose text is empty after tag removal and trimming, yields nothing;
otherwise each tag yields one lyric line sharing the line's text. -/
def parseLine (line : List Char) : List LyricLine :=
  let scanned := scanLine line
  match scanned.1 with
  | [] => []
  | tags =>
    let text := jsTrim scanned.2
    if text = [] then []
    else tags.map (fun t => { time := t, text := String.mk text })

/-- Ordering of lyric lines by time, the comparator
`(a, b) => a.time - b.time`. -/
def timeLE (a b : LyricLine) : Prop := a.time ≤ b.time

instance : DecidableRel timeLE := fun a b => Nat.decLe a.time b.time

instance : IsTotal LyricLine timeLE := ⟨fun a b => Nat.le_total a.time b.time⟩

instance : IsTrans LyricLine timeLE := ⟨fun _ _ _ => Nat.le_trans⟩

/-- Tolerance test of the translation merge:
`Math.abs(l.time - tp.time) < 0.1` seconds, i.e. less than 100 ms. -/
def nearTime (a b : Nat) : Bool := max a b - min a b < 100

/-- One step of the translation merge: `lyricData.find(...)` locates the
first primary line within the 0.1 s tolerance of the translation line
`tp` and its `ttext` field is set to the translation's text; when no
line matches, nothing changes. -/
def attachTrans : List LyricLine → LyricLine → List LyricLine
  | [], _ => []
  | l :: rest, tp =>
    if nearTime l.time tp.time then { l with ttext := some tp.text } :: rest
    else l :: attachTrans rest tp

/-- Embedding of `parseLyrics` from `src/js/player/lyrics.ts`.  An empty
primary text yields no lines (`if (!lrc) return []`); otherwise every
`\n`-separated line is parsed by `parseLine`, the result is sorted
ascending by time (`Array.prototype.sort`, stable), and, when a
non-empty translation text is supplied (`if (tlyric)`), its parsed lines
are merged one by one by `attachTrans`. -/
def parseLyrics (lrc : String) (tlyric : Option String) : List LyricLine :=
  if lrc.data = [] then []
  else
    let lyricData :=
      List.insertionSort timeLE ((splitNl lrc.data).flatMap parseLine)
    match tlyric with
    | none => lyricData
    | some t =>
      if t.data = [] then lyricData
      else ((splitNl t.data).flatMap parseLine).foldl attachTrans lyricData

/-! ## Resources module — preview detector -/

/-- Configuration constants `PREVIEW_DETECTION`.  Modelled from the spec:
the `config` module that defines them is not among the sources.  The
source compares durations in seconds (`durationSec = knownDuration/1000`)
against these constants; the embedding keeps every duration constant in
integer milliseconds, which is order-isomorphic (the map `x ↦ x/1000` is
monotone and injective on the rationals). -/
structure PreviewConfig where
  MIN_FILE_SIZE : Nat
  MIN_DURATION_MS : Nat
  MAX_DURATION_MS : Nat
  TYPICAL_DURATIONS_MS : List Nat
  DURATION_TOLERANCE_MS : Nat
  PROACTIVE_CHECK : Bool

/-- Concrete constants for closed statements.  Modelled from the spec:
the file-size threshold is 100 KB (spec scenario "50KB, threshold
100KB"); the duration window and typical preview lengths are plausible
values (25 s – 65 s window, typical lengths 30/45/60 s, tolerance 3 s) —
no claim depends on the exact numbers. -/
def specPreviewConfig : PreviewConfig where
  MIN_FILE_SIZE := 102400
  MIN_DURATION_MS := 25000
  MAX_DURATION_MS := 65000
  TYPICAL_DURATIONS_MS := [30000, 45000, 60000]
  DURATION_TOLERANCE_MS := 3000
  PROACTIVE_CHECK := true

/-- The fixed case-insensitive URL patterns of `isProbablyPreview`:
`/preview/i, /trial/i, /sample/i, /freepart/i, /clip/i, /m-trial/i`. -/
def previewPatterns : List (List Char) :=
  ["preview".data, "trial".data, "sample".data, "freepart".data,
   "clip".data, "m-trial".data]

/-- Case-insensitive test of the fixed URL patterns (the patterns are
ASCII lowercase, so `/pat/i.test(url)` is containment in the lowercased
URL). -/
def urlHasPreviewPattern (url : String) : Bool :=
  previewPatterns.any (fun p => listContainsSeg p (url.data.map asciiLower))

/-- Size rule of `isProbablyPreview`:
`size && size > 0 && size < PREVIEW_DETECTION.MIN_FILE_SIZE` (an absent
size, like a zero size, is falsy). -/
def previewSizeRule (cfg : PreviewConfig) : Option Nat → Bool
  | some n => 0 < n && n < cfg.MIN_FILE_SIZE
  | none => false

/-- Duration rule of `isProbablyPreview`: a known positive duration whose
seconds value lies in the plausible-preview window and within tolerance
of one of the typical preview lengths. -/
def previewDurationRule (cfg : PreviewConfig) : Option Nat → Bool
  | some d =>
    0 < d &&
    (cfg.MIN_DURATION_MS ≤ d && d ≤ cfg.MAX_DURATION_MS &&
      cfg.TYPICAL_DURATIONS_MS.any
        (fun t => max d t - min d t ≤ cfg.DURATION_TOLERANCE_MS))
  | none => false

/-- Embedding of `isProbablyPreview` from the resources module.  Note the
guard `if (!url) return true` that precedes the three documented rules:
an empty URL is classified as a preview. -/
def isProbablyPreview (cfg : PreviewConfig) (url : String)
    (size : Option Nat) (knownDuration : Option Nat) : Bool :=
  if url.data = [] then true
  else if urlHasPreviewPattern url then true
  else if previewSizeRule cfg size then true
  else if previewDurationRule cfg knownDuration then true
  else false

/-! ## Resources module — data model and cross-source sweep -/

/-- The fields of a `Song` used by the resolution pipeline (the `types`
module itself is not among the sources; field names follow their uses in
the code: `id`, `name`, `artist` — a string or an array —, `source`,
`duration` in milliseconds). -/
structure Song where
  id : String
  name : String
  artist : JsArtist
  source : Option String := none
  duration : Option Nat := none
deriving DecidableEq

/-- A resolved audio result `SongUrlResult`: URL, bitrate label, optional
byte size, optional source tag. -/
structure SongUrlResult where
  url : String
  br : String
  size : Option Nat := none
  source : Option String := none
deriving DecidableEq

/-- JavaScript's `Array.isArray(song.artist) ? song.artist[0] : song.artist`
(an empty artist array would give `undefined`; no claim concerns that
degenerate value). -/
def jsArtistFirst : JsArtist → String
  | .single s => s
  | .list l => l.headD "undefined"

/-- Per-source statistics counters (`sourceSuccessCount`,
`sourceFailCount`), read with absent keys as zero. -/
structure SourceStats where
  success : String → Nat
  fail : String → Nat

/-- Increment one source's success counter:
`sourceSuccessCount.set(source, (sourceSuccessCount.get(source) || 0) + 1)`. -/
def bumpSuccess (st : SourceStats) (s : String) : SourceStats :=
  { st with success := fun x => if x = s then st.success x + 1 else st.success x }

/-- Increment one source's fail counter. -/
def bumpFail (st : SourceStats) (s : String) : SourceStats :=
  { st with fail := fun x => if x = s then st.fail x + 1 else st.fail x }

/-- The sweep's mutable context: the counter maps plus the log of
snapshots written by `saveSourceStats()` (each call persists the current
counters to durable storage). -/
structure SweepState where
  stats : SourceStats
  savedSnapshots : List SourceStats

/-- Embedding of `saveSourceStats()`: persist the current counters. -/
def saveStats (w : SweepState) : SweepState :=
  { w with savedSnapshots := w.savedSnapshots ++ [w.stats] }

/-- The result-selection loop of `searchSongFromOtherSources`, iterating
the joined per-source results in roster priority order: the first
success bumps that source's success counter, persists the stats and is
returned; a failed source before it bumps that source's fail counter;
when no source succeeded the stats are persisted after the loop and
`null` is returned. -/
def sweepLoop : List (String × Option SongUrlResult) → SweepState →
    Option SongUrlResult × SweepState
  | [], w => (none, saveStats w)
  | (source, res) :: rest, w =>
    match res with
    | some r => (some r, saveStats { w with stats := bumpSuccess w.stats source })
    | none => sweepLoop rest { w with stats := bumpFail w.stats source }

/-- Embedding of `searchSongFromOtherSources` from the resources module.
The per-source searches (`searchSingleSource`, one call per roster
source, started concurrently and joined by `Promise.all`; each call has
its rejection caught and turned into `null`) are abstracted by the
oracle `outcome`.  `_songName`/`_artistName` are threaded for
faithfulness to the signature; the oracle already closes over them. -/
def searchSongFromOtherSources (outcome : String → Option SongUrlResult)
    (_songName _artistName : String) (excludeSource : String)
    (w : SweepState) : Option SongUrlResult × SweepState :=
  let sources := getSortedFallbackSources w.stats.success excludeSource
  let results := sources.map (fun s => (s, outcome s))
  sweepLoop results w

/-! ## Resources module — deduplicated full-version search -/

/-- JavaScript's `String(undefined)`-style rendering of the optional
source tag inside the template literal building the in-flight key. -/
def jsOptString : Option String → String
  | some s => s
  | none => "undefined"

/-- Insertion into a JavaScript `Set` of strings (membership-free
append). -/
def jsSetAdd (l : List String) (k : String) : List String :=
  if l.contains k then l else l ++ [k]

/-- Deletion from a JavaScript `Set` of strings. -/
def jsSetDelete (l : List String) (k : String) : List String :=
  l.filter (fun x => x ≠ k)

/-- The in-flight key of `tryGetFullVersionFromOtherSources`:
the template literal `${song.id}_${song.source}`. -/
def inFlightKey (song : Song) : String :=
  song.id ++ "_" ++ jsOptString song.source

/-- Embedding of `tryGetFullVersionFromOtherSources` from the resources
module.  The sweep is abstracted by the oracle
`search name artist excludeSource quality`, whose `Except.error` value
models a thrown exception; the result triple is
(outcome as seen by the caller — rethrown when the sweep threw —,
whether a sweep was started, final in-flight set).  The key is added to
the in-flight set before the sweep and removed in a `finally` block, so
it is removed on every exit path. -/
def tryGetFullVersionFromOtherSources (inflight : List String) (song : Song)
    (search : String → String → String → String → Except Unit (Option SongUrlResult))
    (quality : String) :
    Except Unit (Option SongUrlResult) × Bool × List String :=
  let key := inFlightKey song
  if inflight.contains key then (Except.ok none, false, inflight)
  else
    let inflightDuring := jsSetAdd inflight key
    let artist := jsArtistFirst song.artist
    let outcome := search song.name artist (song.source.getD "netease") quality
    (outcome, true, jsSetDelete inflightDuring key)

/-! ## Resources module — resolution orchestrator -/

/-- Oracle environment of `getSongUrl`: the preview-detection constants,
the outcome of the primary-catalog match endpoint (`none` models both a
caught fetch error and a response without a URL), the circuit breaker's
verdict on the aggregator, the outcome of the aggregator's direct id
lookup, and the cross-catalog sweep as a function of
(song name, artist, excluded source, quality). -/
structure ResolveEnv where
  cfg : PreviewConfig
  neteaseMatch : Option SongUrlResult
  gdAvailable : Bool
  gdResult : Option SongUrlResult
  crossSearch : String → String → String → String → Option SongUrlResult

/-- Step-1 oracle as consulted by `getSongUrl`: the primary-catalog match
endpoint is tried only for songs of the `netease` source. -/
def step1Outcome (env : ResolveEnv) (song : Song) : Option SongUrlResult :=
  if song.source.getD "netease" = "netease" then env.neteaseMatch else none

/-- Step-2 oracle as consulted by `getSongUrl`: the aggregator's direct
lookup is tried only when `isGDStudioApiAvailable()` (the circuit
breaker) allows it. -/
def step2Outcome (env : ResolveEnv) : Option SongUrlResult :=
  if env.gdAvailable then env.gdResult else none

/-- Embedding of `getSongUrl` from the resources module.  Step 1 (primary
catalog, netease only): a non-preview result returns immediately, a
preview result is stashed and — when `PROACTIVE_CHECK` — the cross-source
sweep is started.  Step 2 (aggregator, when the circuit breaker allows):
likewise, the preview test also using the song's known duration.  Step 3:
a started sweep is awaited and a non-null result returned.  Step 4: the
first stashed candidate, else the sentinel `{url: '', br: quality}`.
Every upstream failure is caught (`none` outcomes), so the function is
total: it never throws. -/
def getSongUrl (env : ResolveEnv) (song : Song) (quality : String) : SongUrlResult :=
  let source := song.source.getD "netease"
  let artist := jsArtistFirst song.artist
  let finish : List SongUrlResult → Bool → SongUrlResult := fun candidates crossStarted =>
    match (if crossStarted then env.crossSearch song.name artist source quality else none) with
    | some r => r
    | none => candidates.headD { url := "", br := quality }
  let step2 : List SongUrlResult → Bool → SongUrlResult := fun candidates crossStarted =>
    match step2Outcome env with
    | some res =>
      if !isProbablyPreview env.cfg res.url res.size song.duration then res
      else finish (candidates ++ [res]) (crossStarted || env.cfg.PROACTIVE_CHECK)
    | none => finish candidates crossStarted
  match step1Outcome env song with
  | some res =>
    if !isProbablyPreview env.cfg res.url res.size none then res
    else step2 [res] env.cfg.PROACTIVE_CHECK
  | none => step2 [] false

/-! ## Circuit breaker (spec-modelled) -/

/-- Circuit breaker states. -/
inductive CircuitState where
  | CLOSED
  | OPEN
  | HALF_OPEN
deriving DecidableEq

/-- Modelled from the spec: the `circuit-breaker` module is not among the
sources.  Per-source availability state machine: state, consecutive
failure counter, last-failure timestamp, and the configured failure
threshold and cool-down (times in milliseconds). -/
structure CircuitBreaker where
  state : CircuitState
  failureCount : Nat
  lastFailureTime : Nat
  failureThreshold : Nat
  cooldownMs : Nat
deriving DecidableEq

/-- Modelled from the spec: `canExecute()` at time `now`.  CLOSED allows
the call; OPEN rejects until the cool-down has elapsed, then transitions
to HALF_OPEN and allows exactly one trial call; in HALF_OPEN the single
trial is already out, so further calls are rejected.  Returns the verdict
and the updated breaker. -/
def canExecute (cb : CircuitBreaker) (now : Nat) : Bool × CircuitBreaker :=
  match cb.state with
  | .CLOSED => (true, cb)
  | .OPEN =>
    if cb.lastFailureTime + cb.cooldownMs ≤ now then
      (true, { cb with state := .HALF_OPEN })
    else (false, cb)
  | .HALF_OPEN => (false, cb)

/-- Modelled from the spec: `recordSuccess()` returns a HALF_OPEN breaker
to CLOSED and zeroes the consecutive-failure counter. -/
def recordSuccess (cb : CircuitBreaker) : CircuitBreaker :=
  match cb.state with
  | .HALF_OPEN => { cb with state := .CLOSED, failureCount := 0 }
  | _ => { cb with failureCount := 0 }

/-- Modelled from the spec: `recordFailure()` at time `now`.  In CLOSED
the consecutive-failure counter is incremented and reaching the threshold
opens the circuit; in HALF_OPEN the trial failure reopens the circuit
with the cool-down restarted; in OPEN the failure is counted and the
cool-down restarts from the latest failure. -/
def recordFailure (cb : CircuitBreaker) (now : Nat) : CircuitBreaker :=
  match cb.state with
  | .CLOSED =>
    if cb.failureCount + 1 ≥ cb.failureThreshold then
      { cb with state := .OPEN, failureCount := cb.failureCount + 1,
                lastFailureTime := now }
    else { cb with failureCount := cb.failureCount + 1 }
  | .HALF_OPEN =>
    { cb with state := .OPEN, failureCount := cb.failureCount + 1,
              lastFailureTime := now }
  | .OPEN =>
    { cb with failureCount := cb.failureCount + 1, lastFailureTime := now }

/-- A fresh CLOSED breaker. -/
def freshBreaker (threshold cooldown : Nat) : CircuitBreaker :=
  { state := .CLOSED, failureCount := 0, lastFailureTime := 0,
    failureThreshold := threshold, cooldownMs := cooldown }

/-- Apply `recordFailure` `n` times, all at time `now`. -/
def applyFailures (cb : CircuitBreaker) (now : Nat) : Nat → CircuitBreaker
  | 0 => cb
  | n + 1 => recordFailure (applyFailures cb now n) now

/-! ## Claim-side definitions

The following definitions restate, in the spec's words, the quantities
the claims talk about; the theorems below compare them with the source
embeddings. -/

/-- The Jaccard similarity of the two unique-character sets of the
normalized strings, as the spec words the final branch of
`calculateSimilarity`. -/
def jaccardQ (a b : String) : ℚ :=
  (((normalizeStr a).toFinset ∩ (normalizeStr b).toFinset).card : ℚ) /
  (((normalizeStr a).toFinset ∪ (normalizeStr b).toFinset).card : ℚ)

/-- The spec's wording of `calculateSimilarity`: exact match of the
normalized strings scores 1.0, containment either way scores 0.8,
otherwise the unique-character Jaccard similarity. -/
def similaritySpec (a b : String) : ℚ :=
  if normalizeStr a = normalizeStr b then 1
  else if listContainsSeg (normalizeStr b) (normalizeStr a) ||
          listContainsSeg (normalizeStr a) (normalizeStr b) then 8 / 10
  else jaccardQ a b

/-- The empty-URL sentinel denoting "nothing found". -/
def sentinelResult (quality : String) : SongUrlResult :=
  { url := "", br := quality }

/-- The preview candidate stashed by step 1 of `getSongUrl` (at most
one): a primary-catalog result flagged as preview. -/
def step1Stash (env : ResolveEnv) (song : Song) : List SongUrlResult :=
  match step1Outcome env song with
  | some r => if isProbablyPreview env.cfg r.url r.size none then [r] else []
  | none => []

/-- The preview candidate stashed by step 2 of `getSongUrl` (at most
one): an aggregator result flagged as preview, the test also using the
song's known duration. -/
def step2Stash (env : ResolveEnv) (song : Song) : List SongUrlResult :=
  match step2Outcome env with
  | some r => if isProbablyPreview env.cfg r.url r.size song.duration then [r] else []
  | none => []

/-- All stashed preview candidates, in stash order (primary catalog
first, aggregator second). -/
def stashedCandidates (env : ResolveEnv) (song : Song) : List SongUrlResult :=
  step1Stash env song ++ step2Stash env song

/-- Whether a cross-catalog background search was started: proactive
checking is configured and at least one preview candidate was stashed. -/
def crossStartedFlag (env : ResolveEnv) (song : Song) : Bool :=
  env.cfg.PROACTIVE_CHECK && !(stashedCandidates env song).isEmpty

/-- The claim's fallback priority: a result of a started cross-catalog
search outranks every stashed preview candidate; otherwise the first
stashed preview candidate; only with no candidate at all, the sentinel. -/
def fallbackChoice (env : ResolveEnv) (song : Song) (quality : String) : SongUrlResult :=
  let stashFirst := (stashedCandidates env song).headD (sentinelResult quality)
  if crossStartedFlag env song then
    (env.crossSearch song.name (jsArtistFirst song.artist)
        (song.source.getD "netease") quality).getD stashFirst
  else stashFirst

/-- Whether step 1 of `getSongUrl` returns immediately (a non-preview
primary-catalog result). -/
def step1Immediate (env : ResolveEnv) (song : Song) : Bool :=
  match step1Outcome env song with
  | some r => !isProbablyPreview env.cfg r.url r.size none
  | none => false

/-- Whether step 2 of `getSongUrl` returns immediately (a non-preview
aggregator result). -/
def step2Immediate (env : ResolveEnv) (song : Song) : Bool :=
  match step2Outcome env with
  | some r => !isProbablyPreview env.cfg r.url r.size song.duration
  | none => false

/-- The number of well-formed timestamp tags in an LRC text: the total
count of (non-overlapping, left-to-right) matches of the timestamp
regular expression over all lines.  This is the claim's `N`. -/
def wellFormedTagCount (lrc : String) : Nat :=
  ((splitNl lrc.data).map (fun line => (scanLine line).1.length)).sum

/-- The number of timestamp tags that sit on emitting lines: tags of
lines whose text is still non-empty after tag removal and trimming
(lines with empty text are dropped by `parseLyrics`). -/
def emittingTagCount (lrc : String) : Nat :=
  ((splitNl lrc.data).map (fun line =>
    let scanned := scanLine line
    if scanned.1 ≠ [] ∧ jsTrim scanned.2 ≠ [] then scanned.1.length else 0)).sum

/-! ## Helper lemmas -/

theorem similarity_eq_spec (a b : String) : calculateSimilarity a b = similaritySpec a b := rfl

theorem jaccardQ_nonneg (a b : String) : 0 ≤ jaccardQ a b := by
  unfold jaccardQ
  exact div_nonneg (by positivity) (by positivity)

theorem jaccardQ_le_one (a b : String) : jaccardQ a b ≤ 1 := by
  unfold jaccardQ
  apply div_le_one_of_le₀
  · exact_mod_cast Finset.card_le_card (Finset.inter_subset_union)
  · positivity

/-- C9: for all strings `a` and `b`, `calculateSimilarity(a,b)` lies in
[0,1] and is computed as: normalize both strings; equal normalized
strings score exactly 1.0 (so "Love Story" against itself scores 1.0);
else containment either way scores exactly 0.8; otherwise the Jaccard
similarity of the two unique-character sets — which is 0 for inputs with
disjoint character sets such as "abc" and "xyz". -/
theorem calculateSimilarity_cases_and_bounds :
    (∀ a b : String, calculateSimilarity a b = similaritySpec a b) ∧
    (∀ a b : String, 0 ≤ calculateSimilarity a b ∧ calculateSimilarity a b ≤ 1) ∧
    calculateSimilarity "Love Story" "Love Story" = 1 ∧
    calculateSimilarity "abc" "xyz" = 0 := by
  refine ⟨fun a b => similarity_eq_spec a b, fun a b => ?_, by decide, ?_⟩
  · rw [similarity_eq_spec, similaritySpec]
    by_cases h1 : normalizeStr a = normalizeStr b
    · rw [if_pos h1]; norm_num
    · rw [if_neg h1]
      by_cases h2 : (listContainsSeg (normalizeStr b) (normalizeStr a) ||
          listContainsSeg (normalizeStr a) (normalizeStr b)) = true
      · rw [if_pos h2]; norm_num
      · rw [if_neg h2]
        exact ⟨jaccardQ_nonneg a b, jaccardQ_le_one a b⟩
  · rw [similarity_eq_spec, similaritySpec, if_neg (by decide), if_neg (by decide), jaccardQ]
    rw [show ((normalizeStr "abc").toFinset ∩ (normalizeStr "xyz").toFinset).card = 0 from by decide]
    rw [Nat.cast_zero, zero_div]

/-- C4 counterexample: on the empty URL all three documented rules are
false — it matches no pattern, and size and duration are absent — yet
`isProbablyPreview` returns `true` (the guard `if (!url) return true`),
contradicting "in every other case it returns false". -/
theorem isProbablyPreview_empty_url_counterexample :
    isProbablyPreview specPreviewConfig "" none none = true ∧
    urlHasPreviewPattern "" = false ∧
    previewSizeRule specPreviewConfig none = false ∧
    previewDurationRule specPreviewConfig none = false := by decide

/-- C4 (amended): `isProbablyPreview` evaluates its rules in order with
the first true winning — rule (0): a falsy (empty) URL yields true;
rule (1): the URL matches one of the fixed case-insensitive patterns
preview/trial/sample/freepart/clip/m-trial, so any URL containing
"preview" yields true regardless of size and duration; rule (2):
`0 < size < MIN_FILE_SIZE` yields true; rule (3): a known duration in
the plausible-preview window and within tolerance of a typical preview
length yields true; in every other case it returns false. -/
theorem isProbablyPreview_rule_order :
    (∀ (cfg : PreviewConfig) (url : String) (size knownDuration : Option Nat),
      isProbablyPreview cfg url size knownDuration =
        (decide (url.data = []) || urlHasPreviewPattern url ||
          previewSizeRule cfg size || previewDurationRule cfg knownDuration)) ∧
    (∀ (cfg : PreviewConfig) (url : String) (size knownDuration : Option Nat),
      listContainsSeg "preview".data (url.data.map asciiLower) = true →
      isProbablyPreview cfg url size knownDuration = true) := by
  constructor
  · intro cfg url size knownDuration
    rw [isProbablyPreview]
    by_cases h1 : url.data = []
    · simp [h1]
    · rw [if_neg h1]
      by_cases h2 : urlHasPreviewPattern url = true
      · simp [h1, h2]
      · rw [Bool.not_eq_true] at h2
        by_cases h3 : previewSizeRule cfg size = true
        · simp [h1, h2, h3]
        · rw [Bool.not_eq_true] at h3
          by_cases h4 : previewDurationRule cfg knownDuration = true
          · simp [h1, h2, h3, h4]
          · rw [Bool.not_eq_true] at h4
            simp [h1, h2, h3, h4]
  · intro cfg url size knownDuration h
    have hp : urlHasPreviewPattern url = true := by
      rw [urlHasPreviewPattern, List.any_eq_true]
      exact ⟨"preview".data, by rw [previewPatterns]; exact List.mem_cons_self _ _, h⟩
    rw [isProbablyPreview]
    by_cases h1 : url.data = []
    · simp [h1]
    · simp [h1, hp]

/-- C4 witness: the pattern rule fires on a concrete URL containing
"preview" even with no size and no duration. -/
theorem isProbablyPreview_rule_order_witness :
    listContainsSeg "preview".data (("http://x/preview/a.mp3").data.map asciiLower) = true ∧
    isProbablyPreview specPreviewConfig "http://x/preview/a.mp3" none none = true :=
  ⟨by decide, isProbablyPreview_rule_order.2 specPreviewConfig "http://x/preview/a.mp3" none none (by decide)⟩

/-- C7: for every excluded source `x`, `getSortedFallbackSources(x)` is
a permutation of the fixed roster minus `x` (hence never contains `x`),
is ordered descending by recorded success count, and breaks ties between
equal success counts by original roster order (stability of the sort). -/
theorem getSortedFallbackSources_ranking :
    (∀ (success : String → Nat) (x : String),
      x ∉ getSortedFallbackSources success x) ∧
    (∀ (success : String → Nat) (x : String),
      getSortedFallbackSources success x ~
        FALLBACK_SOURCES.filter (fun s => s ≠ x)) ∧
    (∀ (success : String → Nat) (x : String),
      List.Sorted (successGE success) (getSortedFallbackSources success x)) ∧
    (∀ (success : String → Nat) (x a b : String), success a = success b →
      [a, b] <+ FALLBACK_SOURCES.filter (fun s => s ≠ x) →
      [a, b] <+ getSortedFallbackSources success x) := by
  refine ⟨?_, ?_, ?_, ?_⟩
  · intro success x hx
    rw [getSortedFallbackSources, List.mem_insertionSort, List.mem_filter] at hx
    simpa using hx.2
  · intro success x
    exact List.perm_insertionSort _ _
  · intro success x
    exact List.sorted_insertionSort _ _
  · intro success x a b hab hsub
    exact List.pair_sublist_insertionSort (Nat.le_of_eq hab.symm) hsub

/-- C7 witness: with all-zero success counts, the first two roster
entries tie and keep their roster order in the output. -/
theorem getSortedFallbackSources_ranking_witness :
    (fun _ : String => 0) "kuwo" = (fun _ : String => 0) "kugou" ∧
    ["kuwo", "kugou"] <+ FALLBACK_SOURCES.filter (fun s => s ≠ "netease") ∧
    ["kuwo", "kugou"] <+ getSortedFallbackSources (fun _ => 0) "netease" :=
  ⟨rfl, by decide,
    getSortedFallbackSources_ranking.2.2.2 (fun _ => 0) "netease" "kuwo" "kugou" rfl (by decide)⟩

/-- C6: the in-flight guard of `tryGetFullVersionFromOtherSources`.  A
call whose key (song id, source tag) is already in flight returns null
immediately without starting a sweep and leaves the set unchanged; any
other call starts the sweep (whose outcome — success, failure, or
exception — it propagates) and, on every exit path, hands back an
in-flight set equal to the initial one, which in particular no longer
retains the key. -/
theorem tryGetFullVersion_in_flight_guard :
    ∀ (inflight : List String) (song : Song)
      (search : String → String → String → String → Except Unit (Option SongUrlResult))
      (quality : String),
      (inFlightKey song ∈ inflight →
        tryGetFullVersionFromOtherSources inflight song search quality =
          (Except.ok none, false, inflight)) ∧
      (inFlightKey song ∉ inflight →
        (tryGetFullVersionFromOtherSources inflight song search quality).1 =
          search song.name (jsArtistFirst song.artist) (song.source.getD "netease") quality ∧
        (tryGetFullVersionFromOtherSources inflight song search quality).2.1 = true ∧
        (tryGetFullVersionFromOtherSources inflight song search quality).2.2 = inflight ∧
        inFlightKey song ∉ (tryGetFullVersionFromOtherSources inflight song search quality).2.2) := by
  intro inflight song search quality
  constructor
  · intro hmem
    rw [tryGetFullVersionFromOtherSources, if_pos (by simpa using hmem)]
  · intro hmem
    have hc : inflight.contains (inFlightKey song) = false := by simpa using hmem
    have hestates : tryGetFullVersionFromOtherSources inflight song search quality =
        (search song.name (jsArtistFirst song.artist) (song.source.getD "netease") quality,
         true, jsSetDelete (jsSetAdd inflight (inFlightKey song)) (inFlightKey song)) := by
      rw [tryGetFullVersionFromOtherSources, if_neg (by simpa using hmem)]
    have hset : jsSetDelete (jsSetAdd inflight (inFlightKey song)) (inFlightKey song) = inflight := by
      rw [jsSetAdd, if_neg (by simpa using hmem), jsSetDelete, List.filter_append]
      rw [List.filter_eq_self.mpr (fun a ha => by
        simp only [ne_eq, decide_eq_true_eq]
        exact fun h => hmem (h ▸ ha))]
      simp
    rw [hestates, hset]
    exact ⟨rfl, rfl, rfl, hmem⟩

/-- C6 witness: a concrete duplicate call returns null at once with the
set unchanged, and a concrete fresh call runs the sweep and hands back
the original (key-free) set. -/
theorem tryGetFullVersion_in_flight_guard_witness :
    inFlightKey { id := "9", name := "s", artist := .single "a", source := some "netease" } ∈
        ["9_netease"] ∧
    tryGetFullVersionFromOtherSources ["9_netease"]
        { id := "9", name := "s", artist := .single "a", source := some "netease" }
        (fun _ _ _ _ => Except.error ()) "320" = (Except.ok none, false, ["9_netease"]) ∧
    inFlightKey { id := "9", name := "s", artist := .single "a", source := some "netease" } ∉
        ([] : List String) ∧
    (tryGetFullVersionFromOtherSources []
        { id := "9", name := "s", artist := .single "a", source := some "netease" }
        (fun _ _ _ _ => Except.error ()) "320").2.2 = [] :=
  ⟨by decide,
   (tryGetFullVersion_in_flight_guard ["9_netease"]
      { id := "9", name := "s", artist := .single "a", source := some "netease" }
      (fun _ _ _ _ => Except.error ()) "320").1 (by decide),
   by decide,
   ((tryGetFullVersion_in_flight_guard []
      { id := "9", name := "s", artist := .single "a", source := some "netease" }
      (fun _ _ _ _ => Except.error ()) "320").2 (by decide)).2.2.1⟩

/-- C10: when a song's artist field is a (non-empty) list, both
`getSongUrl` and `tryGetFullVersionFromOtherSources` behave exactly as
for the first artist name alone — only `artist[0]` is passed into the
cross-catalog search — while a candidate's artist list inside
`calculateSongMatchScore` is flattened by joining with "/". -/
theorem cross_search_uses_first_artist_only :
    (∀ (env : ResolveEnv) (id name hd : String) (tl : List String)
        (source : Option String) (duration : Option Nat) (quality : String),
      getSongUrl env
          { id := id, name := name, artist := .list (hd :: tl),
            source := source, duration := duration } quality =
        getSongUrl env
          { id := id, name := name, artist := .single hd,
            source := source, duration := duration } quality) ∧
    (∀ (inflight : List String) (id name hd : String) (tl : List String)
        (source : Option String) (duration : Option Nat)
        (search : String → String → String → String → Except Unit (Option SongUrlResult))
        (quality : String),
      tryGetFullVersionFromOtherSources inflight
          { id := id, name := name, artist := .list (hd :: tl),
            source := source, duration := duration } search quality =
        tryGetFullVersionFromOtherSources inflight
          { id := id, name := name, artist := .single hd,
            source := source, duration := duration } search quality) ∧
    (∀ (targetName targetArtist candidateName : String) (candidateArtists : List String),
      calculateSongMatchScore targetName targetArtist candidateName (.list candidateArtists) =
        calculateSongMatchScore targetName targetArtist candidateName
          (.single (joinSlash candidateArtists))) := by
  refine ⟨fun env id name hd tl source duration quality => ?_,
          fun inflight id name hd tl source duration search quality => ?_,
          fun targetName targetArtist candidateName candidateArtists => rfl⟩
  · simp only [getSongUrl, step1Outcome, jsArtistFirst, List.headD]
  · simp only [tryGetFullVersionFromOtherSources, inFlightKey, jsArtistFirst, List.headD]

theorem applyFailures_closed_of_lt (threshold cooldown t : Nat) :
    ∀ n, n < threshold →
      applyFailures (freshBreaker threshold cooldown) t n =
        { state := .CLOSED, failureCount := n, lastFailureTime := 0,
          failureThreshold := threshold, cooldownMs := cooldown } := by
  intro n
  induction n with
  | zero => intro _; rfl
  | succ m ih =>
    intro hlt
    rw [applyFailures, ih (Nat.lt_of_succ_lt hlt)]
    rw [recordFailure]
    simp only []
    rw [if_neg (by omega)]

/-- C5 (spec-modelled: the `circuit-breaker` module is not among the
sources): the per-source circuit breaker is a state machine over
{CLOSED, OPEN, HALF_OPEN}.  In CLOSED `canExecute()` is true; after
`failureThreshold` consecutive `recordFailure()` calls the state becomes
OPEN and `canExecute()` is false until the cool-down elapses; after the
cool-down exactly one trial call is allowed (the transition to
HALF_OPEN); `recordSuccess()` in HALF_OPEN returns to CLOSED with the
consecutive-failure counter zeroed; `recordFailure()` in HALF_OPEN
returns to OPEN with the cool-down restarted. -/
theorem circuit_breaker_state_machine :
    (∀ (cb : CircuitBreaker) (now : Nat), cb.state = .CLOSED →
      (canExecute cb now).1 = true) ∧
    (∀ threshold cooldown t : Nat, 0 < threshold →
      (applyFailures (freshBreaker threshold cooldown) t threshold).state = .OPEN ∧
      (applyFailures (freshBreaker threshold cooldown) t threshold).lastFailureTime = t ∧
      (applyFailures (freshBreaker threshold cooldown) t threshold).failureCount = threshold) ∧
    (∀ threshold cooldown t n : Nat, n < threshold →
      (applyFailures (freshBreaker threshold cooldown) t n).state = .CLOSED) ∧
    (∀ (cb : CircuitBreaker) (now : Nat), cb.state = .OPEN →
      now < cb.lastFailureTime + cb.cooldownMs → (canExecute cb now).1 = false) ∧
    (∀ (cb : CircuitBreaker) (now : Nat), cb.state = .OPEN →
      cb.lastFailureTime + cb.cooldownMs ≤ now →
      (canExecute cb now).1 = true ∧ (canExecute cb now).2.state = .HALF_OPEN ∧
      ∀ now2 : Nat, (canExecute (canExecute cb now).2 now2).1 = false) ∧
    (∀ cb : CircuitBreaker, cb.state = .HALF_OPEN →
      (recordSuccess cb).state = .CLOSED ∧ (recordSuccess cb).failureCount = 0 ∧
      ∀ now : Nat, (canExecute (recordSuccess cb) now).1 = true) ∧
    (∀ (cb : CircuitBreaker) (now : Nat), cb.state = .HALF_OPEN →
      (recordFailure cb now).state = .OPEN ∧
      (recordFailure cb now).lastFailureTime = now ∧
      ∀ now2 : Nat, now2 < now + cb.cooldownMs →
        (canExecute (recordFailure cb now) now2).1 = false) := by
  refine ⟨?_, ?_, ?_, ?_, ?_, ?_, ?_⟩
  · intro cb now h
    rw [canExecute, h]
  · intro threshold cooldown t h
    obtain ⟨m, rfl⟩ : ∃ m, threshold = m + 1 := ⟨threshold - 1, by omega⟩
    rw [applyFailures, applyFailures_closed_of_lt _ cooldown t m (by omega), recordFailure]
    simp only []
    rw [if_pos (by omega)]
    exact ⟨rfl, rfl, rfl⟩
  · intro threshold cooldown t n h
    rw [applyFailures_closed_of_lt _ cooldown t n h]
  · intro cb now h hlt
    rw [canExecute, h]
    simp only []
    rw [if_neg (by omega)]
  · intro cb now h hle
    rw [canExecute, h]
    simp only []
    rw [if_pos hle]
    exact ⟨rfl, rfl, fun now2 => by rw [canExecute]⟩
  · intro cb h
    rw [recordSuccess, h]
    exact ⟨rfl, rfl, fun now => by rw [canExecute]⟩
  · intro cb now h
    rw [recordFailure, h]
    refine ⟨rfl, rfl, fun now2 hlt => ?_⟩
    rw [canExecute]
    simp only []
    rw [if_neg (by simpa using hlt)]

/-- C5 witness: a concrete run — threshold 3, cool-down 1000 ms, three
failures at time 5 — opens the circuit; before the cool-down the call is
rejected, at time 1005 exactly one trial is allowed, and a success there
closes the circuit again with a zeroed counter. -/
theorem circuit_breaker_state_machine_witness :
    0 < 3 ∧
    (applyFailures (freshBreaker 3 1000) 5 3).state = .OPEN ∧
    (canExecute (applyFailures (freshBreaker 3 1000) 5 3) 900).1 = false ∧
    (canExecute (applyFailures (freshBreaker 3 1000) 5 3) 1005).1 = true ∧
    (canExecute (canExecute (applyFailures (freshBreaker 3 1000) 5 3) 1005).2 1006).1 = false ∧
    (recordSuccess (canExecute (applyFailures (freshBreaker 3 1000) 5 3) 1005).2).state = .CLOSED ∧
    (recordSuccess (canExecute (applyFailures (freshBreaker 3 1000) 5 3) 1005).2).failureCount = 0 := by
  have hopen := (circuit_breaker_state_machine.2.1 3 1000 5 (by decide)).1
  have hlast := (circuit_breaker_state_machine.2.1 3 1000 5 (by decide)).2.1
  have hhalf := circuit_breaker_state_machine.2.2.2.2.1 (applyFailures (freshBreaker 3 1000) 5 3)
    1005 hopen (by rw [hlast]; decide)
  refine ⟨by decide,
    hopen,
    circuit_breaker_state_machine.2.2.2.1 _ 900 hopen (by rw [hlast]; decide),
    hhalf.1,
    hhalf.2.2 1006,
    (circuit_breaker_state_machine.2.2.2.2.2.1 _ hhalf.2.1).1,
    (circuit_breaker_state_machine.2.2.2.2.2.1 _ hhalf.2.1).2.1⟩

theorem sweepLoop_characterization (outcome : String → Option SongUrlResult) :
    ∀ (srcs : List String) (w : SweepState),
      (sweepLoop (srcs.map fun s => (s, outcome s)) w).1 = srcs.findSome? outcome ∧
      (∀ s, (sweepLoop (srcs.map fun s => (s, outcome s)) w).2.stats.fail s =
        w.stats.fail s + (srcs.takeWhile fun s2 => (outcome s2).isNone).count s) ∧
      (∀ s, (sweepLoop (srcs.map fun s => (s, outcome s)) w).2.stats.success s =
        w.stats.success s +
          (if (srcs.drop (srcs.takeWhile fun s2 => (outcome s2).isNone).length).head? = some s
           then 1 else 0)) ∧
      (sweepLoop (srcs.map fun s => (s, outcome s)) w).2.savedSnapshots =
        w.savedSnapshots ++ [(sweepLoop (srcs.map fun s => (s, outcome s)) w).2.stats] := by
  intro srcs
  induction srcs with
  | nil =>
    intro w
    refine ⟨rfl, fun s => by simp [sweepLoop, saveStats], fun s => by simp [sweepLoop, saveStats], ?_⟩
    simp [sweepLoop, saveStats]
  | cons a rest ih =>
    intro w
    by_cases he : (outcome a).isNone
    · have hnone : outcome a = none := Option.isNone_iff_eq_none.mp he
      have hstep : sweepLoop ((a :: rest).map fun s => (s, outcome s)) w =
          sweepLoop (rest.map fun s => (s, outcome s)) { w with stats := bumpFail w.stats a } := by
        simp only [List.map_cons, sweepLoop, hnone]
      obtain ⟨ih1, ih2, ih3, ih4⟩ := ih { w with stats := bumpFail w.stats a }
      have htw : (a :: rest).takeWhile (fun s2 => (outcome s2).isNone) =
          a :: rest.takeWhile (fun s2 => (outcome s2).isNone) :=
        List.takeWhile_cons_of_pos he
      refine ⟨?_, fun s => ?_, fun s => ?_, ?_⟩
      · rw [hstep, ih1, List.findSome?_cons_of_isNone _ he]
      · rw [hstep, ih2 s, htw, List.count_cons]
        simp only [bumpFail]
        by_cases hsa : s = a
        · subst hsa
          rw [if_pos rfl, if_pos (by simp)]
          omega
        · rw [if_neg hsa, if_neg (by simp only [beq_iff_eq]; exact fun h => hsa h.symm)]
          omega
      · rw [hstep, ih3 s, htw]
        simp only [bumpFail, List.length_cons, List.drop_succ_cons]
      · rw [hstep, ih4]
    · have hsome : (outcome a).isSome := by
        rw [Option.isSome_iff_ne_none]
        exact fun h => he (by rw [h]; rfl)
      obtain ⟨r, hr⟩ := Option.isSome_iff_exists.mp hsome
      have hstep : sweepLoop ((a :: rest).map fun s => (s, outcome s)) w =
          (some r, saveStats { w with stats := bumpSuccess w.stats a }) := by
        simp only [List.map_cons, sweepLoop, hr]
      have htw : (a :: rest).takeWhile (fun s2 => (outcome s2).isNone) = [] :=
        List.takeWhile_cons_of_neg he
      refine ⟨?_, fun s => ?_, fun s => ?_, ?_⟩
      · rw [hstep, List.findSome?_cons_of_isSome _ hsome, hr]
      · rw [hstep, htw]
        simp [saveStats, bumpSuccess]
      · rw [hstep, htw]
        simp only [List.length_nil, List.drop_zero, List.head?_cons, saveStats, bumpSuccess,
          Option.some.injEq]
        by_cases hsa : s = a
        · rw [if_pos hsa, if_pos hsa.symm]
        · rw [if_neg hsa, if_neg (fun h => hsa h.symm), Nat.add_zero]
      · rw [hstep]
        simp [saveStats]

/-- C2 counterexample: with zero counters, excluded source "netease" and
per-source outcomes kuwo → fail, kugou → success, migu → success, the
sweep returns kugou's result, but migu — which yielded a usable result —
gets no success increment and tencent — which yielded nothing — gets no
fail increment: counters are not updated "for every source in the
roster", only up to the first success. -/
theorem searchSongFromOtherSources_counterexample :
    (fun s => if s = "kugou" ∨ s = "migu"
        then some { url := "http://f/x.mp3", br := "128" } else none : String → Option SongUrlResult) "migu" ≠ none ∧
    (fun s => if s = "kugou" ∨ s = "migu"
        then some { url := "http://f/x.mp3", br := "128" } else none : String → Option SongUrlResult) "tencent" = none ∧
    (searchSongFromOtherSources
      (fun s => if s = "kugou" ∨ s = "migu"
        then some { url := "http://f/x.mp3", br := "128" } else none)
      "n" "a" "netease"
      { stats := { success := fun _ => 0, fail := fun _ => 0 }, savedSnapshots := [] }).1 =
      some { url := "http://f/x.mp3", br := "128" } ∧
    (searchSongFromOtherSources
      (fun s => if s = "kugou" ∨ s = "migu"
        then some { url := "http://f/x.mp3", br := "128" } else none)
      "n" "a" "netease"
      { stats := { success := fun _ => 0, fail := fun _ => 0 }, savedSnapshots := [] }).2.stats.success "migu" = 0 ∧
    (searchSongFromOtherSources
      (fun s => if s = "kugou" ∨ s = "migu"
        then some { url := "http://f/x.mp3", br := "128" } else none)
      "n" "a" "netease"
      { stats := { success := fun _ => 0, fail := fun _ => 0 }, savedSnapshots := [] }).2.stats.fail "tencent" = 0 := by
  refine ⟨by decide, by decide, by decide, by decide, by decide⟩

/-- C2 (amended): `searchSongFromOtherSources` starts one search per
source of the ranked fallback roster (one oracle consultation each,
joined together) and returns the first successful result in the fixed
roster priority order produced by `getSortedFallbackSources`, not in
order of arrival.  Counters are updated only up to the first success:
each failed source before it gets a fail increment and the first
succeeding source gets a success increment, while sources after the
first success keep both counters unchanged; the statistics are persisted
once, at exit (after the full roster sweep only when every source
failed, in which case every source's fail counter increments and null is
returned). -/
theorem searchSongFromOtherSources_priority_and_counters :
    ∀ (outcome : String → Option SongUrlResult) (songName artistName excludeSource : String)
      (w : SweepState),
      (searchSongFromOtherSources outcome songName artistName excludeSource w).1 =
        (getSortedFallbackSources w.stats.success excludeSource).findSome? outcome ∧
      ((searchSongFromOtherSources outcome songName artistName excludeSource w).1 = none ↔
        ∀ s ∈ getSortedFallbackSources w.stats.success excludeSource, outcome s = none) ∧
      (∀ s, (searchSongFromOtherSources outcome songName artistName excludeSource w).2.stats.fail s =
        w.stats.fail s +
          ((getSortedFallbackSources w.stats.success excludeSource).takeWhile
            (fun s2 => (outcome s2).isNone)).count s) ∧
      (∀ s, (searchSongFromOtherSources outcome songName artistName excludeSource w).2.stats.success s =
        w.stats.success s +
          (if ((getSortedFallbackSources w.stats.success excludeSource).drop
              ((getSortedFallbackSources w.stats.success excludeSource).takeWhile
                (fun s2 => (outcome s2).isNone)).length).head? = some s
           then 1 else 0)) ∧
      (searchSongFromOtherSources outcome songName artistName excludeSource w).2.savedSnapshots =
        w.savedSnapshots ++
          [(searchSongFromOtherSources outcome songName artistName excludeSource w).2.stats] := by
  intro outcome songName artistName excludeSource w
  obtain ⟨h1, h2, h3, h4⟩ :=
    sweepLoop_characterization outcome (getSortedFallbackSources w.stats.success excludeSource) w
  refine ⟨h1, ?_, h2, h3, h4⟩
  show (sweepLoop ((getSortedFallbackSources w.stats.success excludeSource).map
      fun s => (s, outcome s)) w).1 = none ↔ _
  rw [h1]
  exact List.findSome?_eq_none_iff

theorem parseLine_length (line : List Char) :
    (parseLine line).length =
      (if (scanLine line).1 ≠ [] ∧ jsTrim (scanLine line).2 ≠ []
       then (scanLine line).1.length else 0) := by
  rcases h : (scanLine line).1 with _ | ⟨t, ts⟩
  · simp [parseLine, h]
  · by_cases ht : jsTrim (scanLine line).2 = []
    · simp [parseLine, h, ht]
    · simp [parseLine, h, ht]

theorem attachTrans_map_time_text (base : List LyricLine) (tp : LyricLine) :
    (attachTrans base tp).map (fun l => (l.time, l.text)) =
      base.map (fun l => (l.time, l.text)) := by
  induction base with
  | nil => rfl
  | cons l rest ih =>
    rw [attachTrans]
    by_cases h : nearTime l.time tp.time
    · simp [h]
    · simp [h, ih]

theorem foldl_attachTrans_map_time_text (tps : List LyricLine) :
    ∀ base : List LyricLine,
      ((tps.foldl attachTrans base).map fun l => (l.time, l.text)) =
        base.map fun l => (l.time, l.text) := by
  induction tps with
  | nil => intro base; rfl
  | cons tp rest ih =>
    intro base
    rw [List.foldl_cons, ih, attachTrans_map_time_text]

theorem foldl_attachTrans_length (tps base : List LyricLine) :
    (tps.foldl attachTrans base).length = base.length := by
  have h := congrArg List.length (foldl_attachTrans_map_time_text tps base)
  simpa using h

theorem foldl_attachTrans_map_time (tps base : List LyricLine) :
    ((tps.foldl attachTrans base).map fun l => l.time) = base.map fun l => l.time := by
  have h := congrArg (List.map Prod.fst) (foldl_attachTrans_map_time_text tps base)
  simpa [List.map_map, Function.comp] using h

theorem sorted_foldl_attachTrans (tps base : List LyricLine)
    (h : List.Sorted timeLE base) :
    List.Sorted timeLE (tps.foldl attachTrans base) := by
  have h1 : List.Pairwise (fun a b : Nat => a ≤ b) (base.map fun l => l.time) := by
    rw [List.pairwise_map]
    exact h
  rw [← foldl_attachTrans_map_time tps base, List.pairwise_map] at h1
  exact h1

theorem parseLyrics_base_eq (lrc : String) (h : ¬(lrc.data = [])) :
    parseLyrics lrc none =
      List.insertionSort timeLE ((splitNl lrc.data).flatMap parseLine) := by
  rw [parseLyrics, if_neg h]

theorem parseLyrics_merge_eq (lrc t : String) (h : ¬(lrc.data = [])) (ht : ¬(t.data = [])) :
    parseLyrics lrc (some t) =
      ((splitNl t.data).flatMap parseLine).foldl attachTrans (parseLyrics lrc none) := by
  simp only [parseLyrics, if_neg h, if_neg ht]

theorem flatMap_parseLine_length (lrc : String) :
    ((splitNl lrc.data).flatMap parseLine).length = emittingTagCount lrc := by
  rw [List.flatMap, List.length_flatten, List.map_map, emittingTagCount]
  congr 1
  apply List.map_congr_left
  intro line _
  exact parseLine_length line

/-- C3 counterexample: the text "[00:12.34]" contains one well-formed
timestamp tag, but the line's text is empty after tag removal, so the
whole line is dropped and `parseLyrics` returns 0 lines, not 1. -/
theorem parseLyrics_tag_count_counterexample :
    wellFormedTagCount "[00:12.34]" = 1 ∧
    (parseLyrics "[00:12.34]" none).length = 0 := by
  refine ⟨by decide, by decide⟩

/-- C3 (amended): for any LRC text, `parseLyrics` returns exactly one
Lyric Line per well-formed timestamp tag sitting on a line whose text is
non-empty after tag removal (lines left with empty text are dropped
together with their tags), sorted by non-decreasing time; a line
carrying multiple tags emits one Lyric Line per tag, all sharing that
line's text, and a 2-digit fraction is multiplied by 10 to normalize to
milliseconds. -/
theorem parseLyrics_count_and_order :
    (∀ (lrc : String) (tlyric : Option String),
      (parseLyrics lrc tlyric).length = emittingTagCount lrc) ∧
    (∀ (lrc : String) (tlyric : Option String),
      List.Sorted timeLE (parseLyrics lrc tlyric)) ∧
    (∀ lrc : String, parseLyrics lrc none ~ (splitNl lrc.data).flatMap parseLine) ∧
    (∀ line : List Char, (scanLine line).1 ≠ [] → jsTrim (scanLine line).2 ≠ [] →
      parseLine line = (scanLine line).1.map
        (fun t => { time := t, text := String.mk (jsTrim (scanLine line).2) })) ∧
    (∀ (d1 d2 d3 d4 f1 f2 : Char) (rest : List Char),
      d1.isDigit = true → d2.isDigit = true → d3.isDigit = true → d4.isDigit = true →
      f1.isDigit = true → f2.isDigit = true →
      matchTagAt ('[' :: d1 :: d2 :: ':' :: d3 :: d4 :: '.' :: f1 :: f2 :: ']' :: rest) =
        some (((digitVal d1 * 10 + digitVal d2) * 60 +
               (digitVal d3 * 10 + digitVal d4)) * 1000 +
              (digitVal f1 * 10 + digitVal f2) * 10, rest)) := by
  have hempty : ∀ lrc : String, lrc.data = [] → emittingTagCount lrc = 0 := by
    intro lrc h
    rw [emittingTagCount, h]
    decide
  refine ⟨?_, ?_, ?_, ?_, ?_⟩
  · intro lrc tl
    by_cases h : lrc.data = []
    · rw [parseLyrics, if_pos h, hempty lrc h]
      rfl
    · have hbase : (parseLyrics lrc none).length = emittingTagCount lrc := by
        rw [parseLyrics_base_eq lrc h, List.length_insertionSort, flatMap_parseLine_length]
      match tl with
      | none => exact hbase
      | some t =>
        by_cases ht : t.data = []
        · rw [show parseLyrics lrc (some t) = parseLyrics lrc none from by
            simp only [parseLyrics, if_neg h, if_pos ht]]
          exact hbase
        · rw [parseLyrics_merge_eq lrc t h ht, foldl_attachTrans_length]
          exact hbase
  · intro lrc tl
    by_cases h : lrc.data = []
    · rw [parseLyrics, if_pos h]
      exact List.sorted_nil
    · have hbase : List.Sorted timeLE (parseLyrics lrc none) := by
        rw [parseLyrics_base_eq lrc h]
        exact List.sorted_insertionSort timeLE _
      match tl with
      | none => exact hbase
      | some t =>
        by_cases ht : t.data = []
        · rw [show parseLyrics lrc (some t) = parseLyrics lrc none from by
            simp only [parseLyrics, if_neg h, if_pos ht]]
          exact hbase
        · rw [parseLyrics_merge_eq lrc t h ht]
          exact sorted_foldl_attachTrans _ _ hbase
  · intro lrc
    by_cases h : lrc.data = []
    · rw [parseLyrics, if_pos h, h]
      decide
    · rw [parseLyrics_base_eq lrc h]
      exact List.perm_insertionSort timeLE _
  · intro line htags htext
    rcases h : (scanLine line).1 with _ | ⟨t, ts⟩
    · exact absurd h htags
    · simp [parseLine, h, htext]
  · intro d1 d2 d3 d4 f1 f2 rest hd1 hd2 hd3 hd4 hf1 hf2
    rw [matchTagAt]
    rw [if_pos (by simp [hd1, hd2, hd3, hd4])]
    rw [show fracMs (f1 :: f2 :: ']' :: rest) =
        some ((digitVal f1 * 10 + digitVal f2) * 10, rest) from by
      rw [fracMs, if_pos (by simp [hf1, hf2])]
      rw [if_neg (by decide), if_pos rfl]]

/-- C3 witness: a line with two tags sharing its text, one of them with
a 2-digit fraction (multiplied by 10). -/
theorem parseLyrics_count_and_order_witness :
    (scanLine "[00:01.20][00:02.003]la".data).1 ≠ [] ∧
    jsTrim (scanLine "[00:01.20][00:02.003]la".data).2 ≠ [] ∧
    parseLine "[00:01.20][00:02.003]la".data =
      [{ time := 1200, text := "la" }, { time := 2003, text := "la" }] ∧
    ('0' : Char).isDigit = true ∧ ('1' : Char).isDigit = true ∧
    matchTagAt ('[' :: '0' :: '0' :: ':' :: '0' :: '1' :: '.' :: '2' :: '0' :: ']' :: []) =
      some (1200, []) := by
  have h4 := parseLyrics_count_and_order.2.2.2.1 "[00:01.20][00:02.003]la".data
    (by decide) (by decide)
  have h5 := parseLyrics_count_and_order.2.2.2.2 '0' '0' '0' '1' '2' '0' []
    (by decide) (by decide) (by decide) (by decide) (by decide) (by decide)
  refine ⟨by decide, by decide, ?_, by decide, by decide, ?_⟩
  · rw [h4]
    decide
  · rw [h5]
    decide

/-- C8 counterexample: both translation lines (at 10.00 s and 10.05 s)
lie within the 0.1 s tolerance of the single primary line at 10.00 s;
the claim says each parsed translation line is attached as the
translated text, yet the first one's text "a" survives nowhere — the
later line overwrites it and the output carries only "b". -/
theorem parseLyrics_translation_overwrite_counterexample :
    nearTime 10000 10000 = true ∧ nearTime 10000 10050 = true ∧
    parseLyrics "[00:10.00]a" (some "[00:10.00]x\n[00:10.05]y") =
      [{ time := 10000, text := "a", ttext := some "y" }] := by
  refine ⟨by decide, by decide, by decide⟩

/-- C8 (amended): translation lines are merged in order, each attaching
its text to the first primary lyric line within the 0.1 s tolerance
(lines before the first match are untouched), with a later translation
line matching the same primary line overwriting the earlier attachment;
a translation line matching no primary line is dropped silently; and the
merge never adds, removes, re-times or re-texts primary lines. -/
theorem parseLyrics_translation_merge :
    (∀ (base : List LyricLine) (tp : LyricLine),
      (∀ l ∈ base, nearTime l.time tp.time = false) → attachTrans base tp = base) ∧
    (∀ (pre post : List LyricLine) (l tp : LyricLine),
      (∀ x ∈ pre, nearTime x.time tp.time = false) → nearTime l.time tp.time = true →
      attachTrans (pre ++ l :: post) tp =
        pre ++ { l with ttext := some tp.text } :: post) ∧
    (∀ (tps base : List LyricLine),
      ((tps.foldl attachTrans base).map fun l => (l.time, l.text)) =
        base.map fun l => (l.time, l.text)) ∧
    (∀ (lrc t : String), ¬(lrc.data = []) → ¬(t.data = []) →
      parseLyrics lrc (some t) =
        ((splitNl t.data).flatMap parseLine).foldl attachTrans (parseLyrics lrc none)) := by
  refine ⟨?_, ?_, foldl_attachTrans_map_time_text, parseLyrics_merge_eq⟩
  · intro base tp h
    induction base with
    | nil => rfl
    | cons l rest ih =>
      rw [attachTrans, if_neg (by rw [h l (List.mem_cons_self l rest)]; exact fun hc => nomatch hc)]
      rw [ih (fun x hx => h x (List.mem_cons_of_mem l hx))]
  · intro pre post l tp hpre hl
    induction pre with
    | nil => rw [List.nil_append, List.nil_append, attachTrans, if_pos hl]
    | cons p pre' ih =>
      rw [List.cons_append, List.cons_append, attachTrans,
        if_neg (by rw [hpre p (List.mem_cons_self p pre')]; exact fun hc => nomatch hc)]
      rw [ih (fun x hx => hpre x (List.mem_cons_of_mem p hx))]

/-- C8 witness: a concrete merge — the translation at 10.01 s skips the
primary at 0 s and attaches to the first primary within tolerance, and a
translation whose time matches nothing is dropped. -/
theorem parseLyrics_translation_merge_witness :
    (∀ x ∈ [({ time := 0, text := "u" } : LyricLine)],
      nearTime x.time ({ time := 10010, text := "t" } : LyricLine).time = false) ∧
    nearTime ({ time := 10000, text := "v" } : LyricLine).time
      ({ time := 10010, text := "t" } : LyricLine).time = true ∧
    attachTrans [{ time := 0, text := "u" }, { time := 10000, text := "v" }]
        { time := 10010, text := "t" } =
      [{ time := 0, text := "u" }, { time := 10000, text := "v", ttext := some "t" }] ∧
    (∀ l ∈ [({ time := 0, text := "u" } : LyricLine)],
      nearTime l.time ({ time := 90000, text := "w" } : LyricLine).time = false) ∧
    attachTrans [{ time := 0, text := "u" }] { time := 90000, text := "w" } =
      [{ time := 0, text := "u" }] := by
  refine ⟨by decide, by decide, ?_, by decide, ?_⟩
  · exact parseLyrics_translation_merge.2.1 [{ time := 0, text := "u" }] []
      { time := 10000, text := "v" } { time := 10010, text := "t" }
      (by decide) (by decide)
  · exact parseLyrics_translation_merge.1 [{ time := 0, text := "u" }]
      { time := 90000, text := "w" } (by decide)

/-- C1: `getSongUrl` is total — every upstream failure is a caught
`none` outcome, never an exception — and when neither step returned a
non-preview result immediately, its result follows the fallback
priority: a result of a started cross-catalog background search is
returned in preference to any stashed preview candidate; otherwise the
first stashed preview candidate; only with no candidate at all, the
empty-URL sentinel.  In particular (closed scenario conjuncts): when the
primary catalog yields a preview-flagged URL (50 KB, threshold 100 KB)
while the aggregator's circuit is OPEN and the cross-catalog sweep
fails, the stashed preview URL is returned rather than the sentinel. -/
theorem getSongUrl_fallback_priority :
    (∀ (env : ResolveEnv) (song : Song) (quality : String),
      step1Immediate env song = false → step2Immediate env song = false →
      getSongUrl env song quality = fallbackChoice env song quality) ∧
    isProbablyPreview specPreviewConfig "http://a/full.mp3" (some 51200) none = true ∧
    getSongUrl
      { cfg := specPreviewConfig,
        neteaseMatch := some { url := "http://a/full.mp3", br := "128", size := some 51200 },
        gdAvailable := false, gdResult := none, crossSearch := fun _ _ _ _ => none }
      { id := "1", name := "s", artist := .single "a", source := some "netease" } "320" =
      { url := "http://a/full.mp3", br := "128", size := some 51200 } ∧
    ({ url := "http://a/full.mp3", br := "128", size := some 51200 } : SongUrlResult) ≠
      sentinelResult "320" := by
  refine ⟨?_, by decide, by decide, by decide⟩
  intro env song quality h1 h2
  rcases e1 : step1Outcome env song with _ | r1
  · rcases e2 : step2Outcome env with _ | r2
    · simp [getSongUrl, e1, e2, fallbackChoice, stashedCandidates, step1Stash, step2Stash,
        crossStartedFlag, sentinelResult]
    · have hp2 : isProbablyPreview env.cfg r2.url r2.size song.duration = true := by
        rw [step2Immediate, e2] at h2
        simpa using h2
      by_cases hpro : env.cfg.PROACTIVE_CHECK = true
      · rcases e3 : env.crossSearch song.name (jsArtistFirst song.artist)
            (song.source.getD "netease") quality with _ | r3
        · simp [getSongUrl, e1, e2, e3, hp2, hpro, fallbackChoice, stashedCandidates,
            step1Stash, step2Stash, crossStartedFlag, sentinelResult]
        · simp [getSongUrl, e1, e2, e3, hp2, hpro, fallbackChoice, stashedCandidates,
            step1Stash, step2Stash, crossStartedFlag, sentinelResult]
      · simp [getSongUrl, e1, e2, hp2, (Bool.not_eq_true _).mp hpro, fallbackChoice,
          stashedCandidates, step1Stash, step2Stash, crossStartedFlag, sentinelResult]
  · have hp1 : isProbablyPreview env.cfg r1.url r1.size none = true := by
      rw [step1Immediate, e1] at h1
      simpa using h1
    rcases e2 : step2Outcome env with _ | r2
    · by_cases hpro : env.cfg.PROACTIVE_CHECK = true
      · rcases e3 : env.crossSearch song.name (jsArtistFirst song.artist)
            (song.source.getD "netease") quality with _ | r3
        · simp [getSongUrl, e1, e2, e3, hp1, hpro, fallbackChoice, stashedCandidates,
            step1Stash, step2Stash, crossStartedFlag, sentinelResult]
        · simp [getSongUrl, e1, e2, e3, hp1, hpro, fallbackChoice, stashedCandidates,
            step1Stash, step2Stash, crossStartedFlag, sentinelResult]
      · simp [getSongUrl, e1, e2, hp1, (Bool.not_eq_true _).mp hpro, fallbackChoice,
          stashedCandidates, step1Stash, step2Stash, crossStartedFlag, sentinelResult]
    · have hp2 : isProbablyPreview env.cfg r2.url r2.size song.duration = true := by
        rw [step2Immediate, e2] at h2
        simpa using h2
      by_cases hpro : env.cfg.PROACTIVE_CHECK = true
      · rcases e3 : env.crossSearch song.name (jsArtistFirst song.artist)
            (song.source.getD "netease") quality with _ | r3
        · simp [getSongUrl, e1, e2, e3, hp1, hp2, hpro, fallbackChoice, stashedCandidates,
            step1Stash, step2Stash, crossStartedFlag, sentinelResult]
        · simp [getSongUrl, e1, e2, e3, hp1, hp2, hpro, fallbackChoice, stashedCandidates,
            step1Stash, step2Stash, crossStartedFlag, sentinelResult]
      · simp [getSongUrl, e1, e2, hp1, hp2, (Bool.not_eq_true _).mp hpro, fallbackChoice,
          stashedCandidates, step1Stash, step2Stash, crossStartedFlag, sentinelResult]

/-- C1 witness: the fallback-priority equation applied to the concrete
circuit-OPEN scenario, whose two immediate-return guards are false. -/
theorem getSongUrl_fallback_priority_witness :
    step1Immediate
      { cfg := specPreviewConfig,
        neteaseMatch := some { url := "http://a/full.mp3", br := "128", size := some 51200 },
        gdAvailable := false, gdResult := none, crossSearch := fun _ _ _ _ => none }
      { id := "1", name := "s", artist := .single "a", source := some "netease" } = false ∧
    step2Immediate
      { cfg := specPreviewConfig,
        neteaseMatch := some { url := "http://a/full.mp3", br := "128", size := some 51200 },
        gdAvailable := false, gdResult := none, crossSearch := fun _ _ _ _ => none }
      { id := "1", name := "s", artist := .single "a", source := some "netease" } = false ∧
    getSongUrl
      { cfg := specPreviewConfig,
        neteaseMatch := some { url := "http://a/full.mp3", br := "128", size := some 51200 },
        gdAvailable := false, gdResult := none, crossSearch := fun _ _ _ _ => none }
      { id := "1", name := "s", artist := .single "a", source := some "netease" } "320" =
      fallbackChoice
        { cfg := specPreviewConfig,
          neteaseMatch := some { url := "http://a/full.mp3", br := "128", size := some 51200 },
          gdAvailable := false, gdResult := none, crossSearch := fun _ _ _ _ => none }
        { id := "1", name := "s", artist := .single "a", source := some "netease" } "320" :=
  ⟨by decide, by decide,
    getSongUrl_fallback_priority.1
      { cfg := specPreviewConfig,
        neteaseMatch := some { url := "http://a/full.mp3", br := "128", size := some 51200 },
        gdAvailable := false, gdResult := none, crossSearch := fun _ _ _ _ => none }
      { id := "1", name := "s", artist := .single "a", source := some "netease" } "320"
      (by decide) (by decide)⟩
